import Mathlib

/-!
Verification of the url-shortener link-mutation service and creation dialog.

The definitions below are a shallow embedding of the two source files of the
repository: the route handlers PATCH and DELETE for `/link/{linkId}`, and the
creation dialog `url-modal.tsx` (zod form schema, title lookup, request
construction).  External collaborators (identity provider, relational store,
HTTP title-lookup proxy) are modelled as explicit parameters: the resolved
identity is an `Option String`, the store is a list of `Link` records inside a
`DB` that also carries a fault-injection field (a pending store error) and a
mutation counter, and the title lookup is an `Except String String`.
JavaScript truthiness on the destructured JSON fields is modelled by `truthy`
on `Option String` (absent or empty string is falsy).
-/

/-- A persisted short-link record: the `Link` table row. -/
structure Link where
  id : String
  userId : String
  url : String
  keyword : String
  title : String
deriving DecidableEq

/-- The parsed JSON body of a mutation request.  Each field may be absent
(`none`); `some ""` models a present-but-empty string, which is falsy in the
handler checks of the form `!field`. -/
structure ReqBody where
  title : Option String
  keyword : Option String
  url : Option String
deriving DecidableEq

/-- The store collaborator: the `Link` table, a pending fault (a store call
raises it when set), and a counter of performed mutations. -/
structure DB where
  store : List Link
  fault : Option String
  muts : Nat
deriving DecidableEq

/-- A JSON response: HTTP status, `success` flag, optional `error` message,
optional `link` payload. -/
structure Resp where
  status : Nat
  success : Bool
  error : Option String
  link : Option Link
deriving DecidableEq

/-- Shorthand for `NextResponse.json` with success false, an error message
and a status code. -/
def errResp (s : Nat) (m : String) : Resp :=
  { status := s, success := false, error := some m, link := none }

/-- Shorthand for `NextResponse.json` with success true and the link
payload (status 200). -/
def okResp (l : Link) : Resp :=
  { status := 200, success := true, error := none, link := some l }

/-- JavaScript truthiness of a possibly-absent string: `undefined`, `null`
and `""` are falsy; any other string is truthy. -/
def truthy : Option String → Bool
  | none => false
  | some s => !s.isEmpty

/-- The store call `prismadb.link.findUnique` keyed by id. -/
def DB.findById (db : DB) (i : String) : Except String (Option Link) :=
  match db.fault with
  | some m => .error m
  | none => .ok (db.store.find? (fun l => l.id == i))

/-- The store call `prismadb.link.findUnique` keyed by keyword with a NOT
clause on id: the first record holding `kw` whose id differs from `i`. -/
def DB.findByKeywordNot (db : DB) (kw i : String) : Except String (Option Link) :=
  match db.fault with
  | some m => .error m
  | none => .ok (db.store.find? (fun l => l.keyword == kw && l.id != i))

/-- Replace the first record satisfying `p` with `r`. -/
def replaceFirst (p : Link → Bool) (r : Link) : List Link → List Link
  | [] => []
  | x :: xs => if p x then r :: xs else x :: replaceFirst p r xs

/-- The store call `prismadb.link.update` keyed by id: overwrite the three
mutable columns of the identified record, return the updated record.
Raises when the record is absent (Prisma P2025). -/
def DB.updateOne (db : DB) (i title keyword url : String) :
    Except String (Link × DB) :=
  match db.fault with
  | some m => .error m
  | none =>
    match db.store.find? (fun l => l.id == i) with
    | none => .error "Record to update not found."
    | some l =>
      let l2 : Link := { l with title := title, keyword := keyword, url := url }
      .ok (l2, { db with store := replaceFirst (fun x => x.id == i) l2 db.store,
                         muts := db.muts + 1 })

/-- The store call `prismadb.link.delete` keyed by id: remove the identified
record, return it as it existed.  Raises when the record is absent. -/
def DB.deleteOne (db : DB) (i : String) : Except String (Link × DB) :=
  match db.fault with
  | some m => .error m
  | none =>
    match db.store.find? (fun l => l.id == i) with
    | none => .error "Record to delete does not exist."
    | some l =>
      .ok (l, { db with store := db.store.eraseP (fun x => x.id == i),
                        muts := db.muts + 1 })

/-- The `try` block of the PATCH handler after a successful `await req.json()`:
`userId` is the identity resolved by `auth()`, `b` the destructured body,
`linkId` is `params.linkId`.  A `.error` result is a raised store error,
reaching the `catch` clause. -/
def patchCore (userId : Option String) (b : ReqBody)
    (linkId : String) (db : DB) : Except String (Resp × DB) :=
  if truthy userId = false then
    .ok (errResp 401 "Unauthenticated.", db)
  else if truthy b.url = false then
    .ok (errResp 400 "URL is required.", db)
  else if truthy b.keyword = false then
    .ok (errResp 400 "Keyword is required.", db)
  else if truthy b.title = false then
    .ok (errResp 400 "Title is required.", db)
  else if linkId.isEmpty then
    .ok (errResp 400 "Link ID is required.", db)
  else
    match db.findById linkId with
    | .error e => .error e
    | .ok none => .ok (errResp 404 "Link not found.", db)
    | .ok (some linkFound) =>
      if linkFound.userId != userId.getD "" then
        .ok (errResp 403 "Unauthorized: You do not own this link.", db)
      else
        match db.findByKeywordNot (b.keyword.getD "") linkFound.id with
        | .error e => .error e
        | .ok (some _) => .ok (errResp 400 "Please enter different keyword.", db)
        | .ok none =>
          match db.updateOne linkId (b.title.getD "") (b.keyword.getD "")
              (b.url.getD "") with
          | .error e => .error e
          | .ok (link, db2) => .ok (okResp link, db2)

/-- The PATCH route handler: `await req.json()` runs inside the `try` before
any check (`body` is its outcome; an `.error` models a body that fails to
parse), and the `catch` clause turns any raised error — parse or store —
into a 500 response carrying the message of the error. -/
def PATCH (userId : Option String) (body : Except String ReqBody)
    (linkId : String) (db : DB) : Resp × DB :=
  match body with
  | .error e => (errResp 500 e, db)
  | .ok b =>
    match patchCore userId b linkId db with
    | .ok r => r
    | .error e => (errResp 500 e, db)

/-- The body of the `try` block of the DELETE handler.  The request body is never
read (`_req` is unused in the source), so no body parameter appears here. -/
def deleteCore (userId : Option String) (linkId : String) (db : DB) :
    Except String (Resp × DB) :=
  if truthy userId = false then
    .ok (errResp 401 "Unauthenticated.", db)
  else if linkId.isEmpty then
    .ok (errResp 400 "Link ID is required.", db)
  else
    match db.findById linkId with
    | .error e => .error e
    | .ok none => .ok (errResp 404 "Link not found.", db)
    | .ok (some linkFound) =>
      if linkFound.userId != userId.getD "" then
        .ok (errResp 403 "Unauthorized: You do not own this link.", db)
      else
        match db.deleteOne linkId with
        | .error e => .error e
        | .ok (link, db2) => .ok (okResp link, db2)

/-- The DELETE route handler.  It receives the request (whose body is
modelled like the PATCH one, as a parse outcome) but never consults it. -/
def DELETE (userId : Option String) (body : Except String ReqBody)
    (linkId : String) (db : DB) : Resp × DB :=
  match deleteCore userId linkId db with
  | .ok r => r
  | .error e => (errResp 500 e, db)

/-!
Embedding of the creation dialog `url-modal.tsx`: the zod form schema, the
best-effort page-title lookup performed in `onSubmit`, and the creation
request it sends.  The URL-wellformedness test of `z.string().url()` is a
library call, modelled as an explicit boolean oracle `isURL`; the network
lookup through the CORS proxy is modelled as an `Except String String`
(contents on success, an `.error` for timeout or network failure).
-/

/-- JavaScript `toLowerCase`, modelled characterwise (ASCII case folding). -/
def toLowerStr (s : String) : String := String.mk (s.toList.map Char.toLower)

/-- The raw strings in the two form fields. -/
structure FormInput where
  url : String
  keyword : String
deriving DecidableEq

/-- Membership in the character class of `/^[a-z0-9_-]+$/`. -/
def keywordCharOk (c : Char) : Bool :=
  (Char.ofNat 97 ≤ c && c ≤ Char.ofNat 122) ||
  (Char.ofNat 48 ≤ c && c ≤ Char.ofNat 57) ||
  c = Char.ofNat 95 || c = Char.ofNat 45

/-- Whether `/^[a-z0-9_-]+$/` matches the whole string. -/
def keywordRegexMatch (s : String) : Bool :=
  !s.isEmpty && s.toList.all keywordCharOk

/-- The `url` field of `formSchema`: lowercase the input, then require a
well-formed URL; the message of the first failing check, or `none` on
success. -/
def validateUrl (isURL : String → Bool) (s : String) : Option String :=
  let v := toLowerStr s
  if isURL v then none else some "Please enter a valid URL."

/-- The `keyword` field of `formSchema`: lowercase, then `min 2`, then the
regex check, each with its message. -/
def validateKeyword (s : String) : Option String :=
  let v := toLowerStr s
  if v.length < 2 then some "Please enter 2 or more characters."
  else if keywordRegexMatch v then none
  else some "Only letters, numbers, hyphens (-) and underscores (_) are allowed."

/-- The parse of `formSchema`: both fields must validate; the parsed output
carries the lowercased values (zod transforms run before the checks and are
kept). -/
def parseForm (isURL : String → Bool) (f : FormInput) : Option FormInput :=
  if (validateUrl isURL f.url).isNone && (validateKeyword f.keyword).isNone then
    some { url := toLowerStr f.url, keyword := toLowerStr f.keyword }
  else none

/-- JavaScript line terminators, which `.` of the title regex never matches. -/
def isLineTerm (c : Char) : Bool :=
  c = Char.ofNat 10 || c = Char.ofNat 13 ||
  c = Char.ofNat 0x2028 || c = Char.ofNat 0x2029

/-- The non-greedy capture of `(.*?)` before the literal `</title>`: the
characters up to the first closing tag, failing at a line terminator or the
end of input. -/
def captureTitle : List Char → Option (List Char)
  | [] => none
  | c :: rest =>
    if List.isPrefixOf "</title>".toList (c :: rest) then some []
    else if isLineTerm c then none
    else
      match captureTitle rest with
      | some t => some (c :: t)
      | none => none

/-- The regex call `contents.match` with pattern `<title>(.*?)</title>`: the group of the leftmost
match — at each position, try the literal `<title>` followed by a capture;
on failure advance one character. -/
def findTitle : List Char → Option (List Char)
  | [] => none
  | c :: rest =>
    if List.isPrefixOf "<title>".toList (c :: rest) then
      match captureTitle (List.drop 7 (c :: rest)) with
      | some t => some t
      | none => findTitle rest
    else findTitle rest

/-- UTF-8 bytes of a code point. -/
def utf8Bytes (n : Nat) : List Nat :=
  if n < 0x80 then [n]
  else if n < 0x800 then [0xC0 + n / 64, 0x80 + n % 64]
  else if n < 0x10000 then
    [0xE0 + n / 4096, 0x80 + (n / 64) % 64, 0x80 + n % 64]
  else
    [0xF0 + n / 262144, 0x80 + (n / 4096) % 64, 0x80 + (n / 64) % 64,
     0x80 + n % 64]

/-- Uppercase hexadecimal digit. -/
def hexDigit (n : Nat) : Char :=
  List.getD "0123456789ABCDEF".toList n (Char.ofNat 48)

/-- Percent escape `%HH` of one byte. -/
def percentEncode (b : Nat) : List Char :=
  [Char.ofNat 37, hexDigit (b / 16), hexDigit (b % 16)]

/-- The characters `encodeURI` leaves unescaped: ASCII alphanumerics, the
URI reserved set, the unreserved marks (including the apostrophe, code 39)
and `#`. -/
def encodeURIUnescaped (c : Char) : Bool :=
  List.contains "ABCDEFGHIJKLMNOPQRSTUVWXYZabcdefghijklmnopqrstuvwxyz0123456789".toList c ||
  List.contains "-_.!~*()#;,/?:@&=+$".toList c ||
  c = Char.ofNat 39

/-- JavaScript `encodeURI`: percent-escape the UTF-8 bytes of every
character outside the unescaped set. -/
def encodeURI (s : String) : String :=
  String.mk (List.flatten (s.toList.map (fun c =>
    if encodeURIUnescaped c then [c]
    else List.flatten ((utf8Bytes c.toNat).map percentEncode))))

/-- The title computed in `onSubmit`: start from the submitted URL as the
fallback; when the lookup succeeds and the title regex matches with a truthy
(non-empty) group, use the `encodeURI` of the group; on lookup failure or no
match or an empty group, keep the URL.  The inner `try` swallows every
lookup failure, so this is total. -/
def resolveTitle (url : String) (lookup : Except String String) : String :=
  match lookup with
  | .error _ => url
  | .ok contents =>
    match findTitle contents.toList with
    | none => url
    | some t => if t.isEmpty then url else encodeURI (String.mk t)

/-- The creation request sent by `onSubmit`: the POST payload is `values`
unchanged, and the resolved title travels out-of-band in the
`long-url-title` header. -/
structure CreateRequest where
  url : String
  keyword : String
  titleHeader : String
deriving DecidableEq

/-- The `onSubmit` flow up to the POST: build the creation request from the
validated values and the lookup outcome. -/
def buildCreateRequest (values : FormInput) (lookup : Except String String) :
    CreateRequest :=
  { url := values.url, keyword := values.keyword,
    titleHeader := resolveTitle values.url lookup }

/-- The wrapper `form.handleSubmit(onSubmit)`: run the schema; on success
submit the creation request built from the parsed values, otherwise send
nothing. -/
def handleSubmit (isURL : String → Bool) (f : FormInput)
    (lookup : Except String String) : Option CreateRequest :=
  match parseForm isURL f with
  | some values => some (buildCreateRequest values lookup)
  | none => none

/-!
Concrete sample data and helper lemmas used by the claim theorems below.
-/

/-- An empty store with no pending fault. -/
def dbEmpty : DB := { store := [], fault := none, muts := 0 }

/-- A sample link owned by user U1, used by concrete witnesses. -/
def l1 : Link :=
  { id := "L1", userId := "U1", url := "https://a.example", keyword := "old",
    title := "A" }

/-- A store holding only `l1`. -/
def db1 : DB := { store := [l1], fault := none, muts := 0 }

/-- A second link, owned by another user, holding the keyword `new`. -/
def lconf : Link :=
  { id := "L2", userId := "U9", url := "https://c.example", keyword := "new",
    title := "C" }

/-- A store holding `l1` and `lconf`. -/
def db2 : DB := { store := [l1, lconf], fault := none, muts := 0 }

/-- A store whose next call raises the error `boom`. -/
def dbFault : DB := { store := [l1], fault := some "boom", muts := 0 }

/-- The record produced by a successful update: the three mutable columns
overwritten, id and userId untouched. -/
def updatedLink (l : Link) (title keyword url : String) : Link :=
  { l with title := title, keyword := keyword, url := url }

/-- The store state after a successful update of the record at `lid`. -/
def updatedDB (db : DB) (lid : String) (l2 : Link) : DB :=
  { db with store := replaceFirst (fun x => x.id == lid) l2 db.store,
            muts := db.muts + 1 }

/-- The store state after a successful delete of the record at `lid`. -/
def deletedDB (db : DB) (lid : String) : DB :=
  { db with store := db.store.eraseP (fun x => x.id == lid),
            muts := db.muts + 1 }

/-- A truthy identity is a `some`. -/
theorem truthy_some (u : Option String) (h : truthy u = true) :
    u = some (u.getD "") := by
  cases u with
  | none => simp [truthy] at h
  | some s => rfl

/-- Inversion of a successful `findById`: no pending fault, and the result
is the first record with the given id. -/
theorem findById_ok (db : DB) (i : String) (ol : Option Link)
    (h : db.findById i = Except.ok ol) :
    db.fault = none ∧ db.store.find? (fun l => l.id == i) = ol := by
  unfold DB.findById at h
  cases hf : db.fault with
  | some m => rw [hf] at h; exact Except.noConfusion h
  | none => rw [hf] at h; injection h with h2; exact ⟨rfl, h2⟩

/-- Computation of `updateOne` on a fault-free store containing the record. -/
theorem updateOne_ok (db : DB) (lid ti kw ur : String) (l : Link)
    (hfault : db.fault = none)
    (hfq : db.store.find? (fun x => x.id == lid) = some l) :
    db.updateOne lid ti kw ur
      = Except.ok (updatedLink l ti kw ur, updatedDB db lid (updatedLink l ti kw ur)) := by
  unfold DB.updateOne updatedLink updatedDB
  rw [hfault, hfq]

/-- Computation of `deleteOne` on a fault-free store containing the record. -/
theorem deleteOne_ok (db : DB) (lid : String) (l : Link)
    (hfault : db.fault = none)
    (hfq : db.store.find? (fun x => x.id == lid) = some l) :
    db.deleteOne lid = Except.ok (l, deletedDB db lid) := by
  unfold DB.deleteOne deletedDB
  rw [hfault, hfq]

/-- After `replaceFirst`, a search with the same predicate finds the
replacement. -/
theorem find?_replaceFirst (p : Link → Bool) (l2 : Link) (xs : List Link)
    (a : Link) (hfq : xs.find? p = some a) (hp : p l2 = true) :
    (replaceFirst p l2 xs).find? p = some l2 := by
  induction xs with
  | nil => exact Option.noConfusion hfq
  | cons x xs ih =>
    by_cases hx : p x = true
    · simp [replaceFirst, hx, hp]
    · rw [List.find?_cons_of_neg _ (by simp [hx])] at hfq
      unfold replaceFirst
      rw [if_neg (by simp [hx])]
      rw [List.find?_cons_of_neg _ (by simp [hx])]
      exact ih hfq

/-- When ids are pairwise distinct, no record with the erased id survives
`eraseP`. -/
theorem eraseP_id_not_mem (i : String) (xs : List Link)
    (hdist : xs.Pairwise (fun a c => a.id ≠ c.id)) :
    ∀ x ∈ xs.eraseP (fun y => y.id == i), x.id ≠ i := by
  induction xs with
  | nil => intro x hx; simp [List.eraseP] at hx
  | cons y ys ih =>
    obtain ⟨hy, hys⟩ := List.pairwise_cons.mp hdist
    intro x hx
    by_cases hm : (y.id == i) = true
    · rw [List.eraseP_cons_of_pos (p := fun z : Link => z.id == i) hm] at hx
      have h1 : y.id = i := by simpa using hm
      have h2 : y.id ≠ x.id := hy x hx
      intro hxi
      exact h2 (by rw [h1, hxi])
    · rw [List.eraseP_cons_of_neg (p := fun z : Link => z.id == i) (by simpa using hm)] at hx
      rcases List.mem_cons.mp hx with rfl | hx2
      · simpa using hm
      · exact ih hys x hx2

/-- Any store change performed by PATCH implies the caller was authenticated
as the owner of the identified link. -/
theorem patch_mutation_owner (u : Option String) (bd : Except String ReqBody)
    (ld : String) (d : DB)
    (hmut : ((PATCH u bd ld d).2).store ≠ d.store) :
    ∃ s l2, u = some s ∧ d.findById ld = Except.ok (some l2) ∧ l2.userId = s := by
  rcases bd with e | b
  · exact absurd rfl hmut
  · simp only [PATCH] at hmut
    split at hmut
    case h_1 r heq =>
      unfold patchCore at heq
      split at heq
      · cases heq; exact absurd rfl hmut
      split at heq
      · cases heq; exact absurd rfl hmut
      split at heq
      · cases heq; exact absurd rfl hmut
      split at heq
      · cases heq; exact absurd rfl hmut
      split at heq
      · cases heq; exact absurd rfl hmut
      split at heq
      · exact Except.noConfusion heq
      · cases heq; exact absurd rfl hmut
      next linkFound heqFind =>
        split at heq
        · cases heq; exact absurd rfl hmut
        next hOwn =>
          split at heq
          · exact Except.noConfusion heq
          · cases heq; exact absurd rfl hmut
          next heqKw =>
            split at heq
            · exact Except.noConfusion heq
            next link db2 heqUp =>
              cases heq
              have hu : truthy u = true := by
                by_contra hfalse
                simp only [Bool.not_eq_true] at hfalse
                simp_all
              refine ⟨u.getD "", linkFound, truthy_some u hu, heqFind, ?_⟩
              simpa using hOwn
    case h_2 e heq => exact absurd rfl hmut

/-- Any store change performed by DELETE implies the caller was
authenticated as the owner of the identified link. -/
theorem delete_mutation_owner (u : Option String) (bd : Except String ReqBody)
    (ld : String) (d : DB)
    (hmut : ((DELETE u bd ld d).2).store ≠ d.store) :
    ∃ s l2, u = some s ∧ d.findById ld = Except.ok (some l2) ∧ l2.userId = s := by
  unfold DELETE at hmut
  split at hmut
  case h_1 r heq =>
    unfold deleteCore at heq
    split at heq
    · cases heq; exact absurd rfl hmut
    split at heq
    · cases heq; exact absurd rfl hmut
    split at heq
    · exact Except.noConfusion heq
    · cases heq; exact absurd rfl hmut
    next linkFound heqFind =>
      split at heq
      · cases heq; exact absurd rfl hmut
      next hOwn =>
        split at heq
        · exact Except.noConfusion heq
        next link db2 heqDel =>
          cases heq
          have hu : truthy u = true := by
            by_contra hfalse
            simp only [Bool.not_eq_true] at hfalse
            simp_all
          refine ⟨u.getD "", linkFound, truthy_some u hu, heqFind, ?_⟩
          simpa using hOwn
  case h_2 e heq => exact absurd rfl hmut

/-- Every non-raising outcome of the PATCH core is either a failure response
with untouched store or a success response with exactly one more mutation. -/
theorem patchCore_sound (u : Option String) (b : ReqBody) (lid : String)
    (db : DB) (r : Resp) (db2 : DB)
    (h : patchCore u b lid db = Except.ok (r, db2)) :
    (r.success = false ∧ db2 = db ∧ r.link = none ∧ (∃ m, r.error = some m)
      ∧ (r.status = 400 ∨ r.status = 401 ∨ r.status = 403 ∨ r.status = 404))
    ∨ (r.success = true ∧ r.status = 200 ∧ r.error = none
      ∧ (∃ l2, r.link = some l2) ∧ db2.muts = db.muts + 1) := by
  unfold patchCore at h
  split at h
  · cases h; exact Or.inl (by simp [errResp])
  split at h
  · cases h; exact Or.inl (by simp [errResp])
  split at h
  · cases h; exact Or.inl (by simp [errResp])
  split at h
  · cases h; exact Or.inl (by simp [errResp])
  split at h
  · cases h; exact Or.inl (by simp [errResp])
  split at h
  · exact Except.noConfusion h
  · cases h; exact Or.inl (by simp [errResp])
  next linkFound heqFind =>
    split at h
    · cases h; exact Or.inl (by simp [errResp])
    next hOwn =>
      split at h
      · exact Except.noConfusion h
      · cases h; exact Or.inl (by simp [errResp])
      next heqKw =>
        split at h
        · exact Except.noConfusion h
        next =>
          rename_i link db3 heqUp
          cases h
          refine Or.inr ⟨rfl, rfl, rfl, ⟨link, rfl⟩, ?_⟩
          unfold DB.updateOne at heqUp
          split at heqUp
          · exact Except.noConfusion heqUp
          split at heqUp
          · exact Except.noConfusion heqUp
          · cases heqUp; rfl

/-- Every non-raising outcome of the DELETE core is either a failure
response with untouched store or a success response with exactly one more
mutation. -/
theorem deleteCore_sound (u : Option String) (lid : String)
    (db : DB) (r : Resp) (db2 : DB)
    (h : deleteCore u lid db = Except.ok (r, db2)) :
    (r.success = false ∧ db2 = db ∧ r.link = none ∧ (∃ m, r.error = some m)
      ∧ (r.status = 400 ∨ r.status = 401 ∨ r.status = 403 ∨ r.status = 404))
    ∨ (r.success = true ∧ r.status = 200 ∧ r.error = none
      ∧ (∃ l2, r.link = some l2) ∧ db2.muts = db.muts + 1) := by
  unfold deleteCore at h
  split at h
  · cases h; exact Or.inl (by simp [errResp])
  split at h
  · cases h; exact Or.inl (by simp [errResp])
  split at h
  · exact Except.noConfusion h
  · cases h; exact Or.inl (by simp [errResp])
  next linkFound heqFind =>
    split at h
    · cases h; exact Or.inl (by simp [errResp])
    next hOwn =>
      split at h
      · exact Except.noConfusion h
      next =>
        rename_i link db3 heqDel
        cases h
        refine Or.inr ⟨rfl, rfl, rfl, ⟨link, rfl⟩, ?_⟩
        unfold DB.deleteOne at heqDel
        split at heqDel
        · exact Except.noConfusion heqDel
        split at heqDel
        · exact Except.noConfusion heqDel
        · cases heqDel; rfl

/-- Frame property of PATCH: success performs exactly one mutation, failure
leaves the store untouched. -/
theorem patch_frame (u : Option String) (bd : Except String ReqBody)
    (lid : String) (db : DB) :
    ((PATCH u bd lid db).1.success = true →
      (PATCH u bd lid db).2.muts = db.muts + 1)
    ∧ ((PATCH u bd lid db).1.success = false → (PATCH u bd lid db).2 = db) := by
  rcases bd with e | b
  · refine ⟨?_, ?_⟩ <;> intro h
    · exact absurd h (by simp [PATCH, errResp])
    · rfl
  · cases hC : patchCore u b lid db with
    | error e =>
      refine ⟨fun h => ?_, fun h => ?_⟩
      · simp only [PATCH, hC] at h
        exact absurd h (by simp [errResp])
      · simp [PATCH, hC]
    | ok rdb =>
      obtain ⟨r, db2⟩ := rdb
      rcases patchCore_sound u b lid db r db2 hC with ⟨hs, hdb, _⟩ | ⟨hs, _, _, _, hm⟩
      · refine ⟨fun h => ?_, fun h => ?_⟩
        · simp only [PATCH, hC] at h
          rw [hs] at h
          exact Bool.noConfusion h
        · simp only [PATCH, hC]
          exact hdb
      · refine ⟨fun h => ?_, fun h => ?_⟩
        · simp only [PATCH, hC]
          exact hm
        · simp only [PATCH, hC] at h
          rw [hs] at h
          exact Bool.noConfusion h

/-- Frame property of DELETE: success performs exactly one mutation, failure
leaves the store untouched. -/
theorem delete_frame (u : Option String) (bd : Except String ReqBody)
    (lid : String) (db : DB) :
    ((DELETE u bd lid db).1.success = true →
      (DELETE u bd lid db).2.muts = db.muts + 1)
    ∧ ((DELETE u bd lid db).1.success = false → (DELETE u bd lid db).2 = db) := by
  cases hC : deleteCore u lid db with
  | error e =>
    refine ⟨fun h => ?_, fun h => ?_⟩
    · simp only [DELETE, hC] at h
      exact absurd h (by simp [errResp])
    · simp [DELETE, hC]
  | ok rdb =>
    obtain ⟨r, db2⟩ := rdb
    rcases deleteCore_sound u lid db r db2 hC with ⟨hs, hdb, _⟩ | ⟨hs, _, _, _, hm⟩
    · refine ⟨fun h => ?_, fun h => ?_⟩
      · simp only [DELETE, hC] at h
        rw [hs] at h
        exact Bool.noConfusion h
      · simp only [DELETE, hC]
        exact hdb
    · refine ⟨fun h => ?_, fun h => ?_⟩
      · simp only [DELETE, hC]
        exact hm
      · simp only [DELETE, hC] at h
        rw [hs] at h
        exact Bool.noConfusion h

/-- Shape of every PATCH response: failures carry an error message, no link
and a status among 400, 401, 403, 404, 500; successes carry a link, status
200 and no error. -/
theorem patch_shape (u : Option String) (bd : Except String ReqBody)
    (lid : String) (db : DB) :
    ((PATCH u bd lid db).1.success = false →
      (∃ m, (PATCH u bd lid db).1.error = some m)
      ∧ (PATCH u bd lid db).1.link = none
      ∧ ((PATCH u bd lid db).1.status = 400 ∨ (PATCH u bd lid db).1.status = 401
         ∨ (PATCH u bd lid db).1.status = 403 ∨ (PATCH u bd lid db).1.status = 404
         ∨ (PATCH u bd lid db).1.status = 500))
    ∧ ((PATCH u bd lid db).1.success = true →
      (∃ l2, (PATCH u bd lid db).1.link = some l2)
      ∧ (PATCH u bd lid db).1.status = 200
      ∧ (PATCH u bd lid db).1.error = none) := by
  rcases bd with e | b
  · refine ⟨fun h => ?_, fun h => ?_⟩
    · exact ⟨⟨e, rfl⟩, rfl, by simp [PATCH, errResp]⟩
    · exact absurd h (by simp [PATCH, errResp])
  · cases hC : patchCore u b lid db with
    | error e =>
      refine ⟨fun h => ?_, fun h => ?_⟩
      · simp only [PATCH, hC]
        exact ⟨⟨e, rfl⟩, rfl, by simp [errResp]⟩
      · simp only [PATCH, hC] at h
        exact absurd h (by simp [errResp])
    | ok rdb =>
      obtain ⟨r, db2⟩ := rdb
      rcases patchCore_sound u b lid db r db2 hC with
        ⟨hs, _, hl, he, hst⟩ | ⟨hs, hst, he, hl, _⟩
      · refine ⟨fun h => ?_, fun h => ?_⟩
        · simp only [PATCH, hC]
          refine ⟨he, hl, ?_⟩
          rcases hst with h1 | h1 | h1 | h1 <;> simp [h1]
        · simp only [PATCH, hC] at h
          rw [hs] at h
          exact Bool.noConfusion h
      · refine ⟨fun h => ?_, fun h => ?_⟩
        · simp only [PATCH, hC] at h
          rw [hs] at h
          exact Bool.noConfusion h
        · simp only [PATCH, hC]
          exact ⟨hl, hst, he⟩

/-- Shape of every DELETE response: failures carry an error message, no link
and a status among 400, 401, 403, 404, 500; successes carry a link, status
200 and no error. -/
theorem delete_shape (u : Option String) (bd : Except String ReqBody)
    (lid : String) (db : DB) :
    ((DELETE u bd lid db).1.success = false →
      (∃ m, (DELETE u bd lid db).1.error = some m)
      ∧ (DELETE u bd lid db).1.link = none
      ∧ ((DELETE u bd lid db).1.status = 400 ∨ (DELETE u bd lid db).1.status = 401
         ∨ (DELETE u bd lid db).1.status = 403 ∨ (DELETE u bd lid db).1.status = 404
         ∨ (DELETE u bd lid db).1.status = 500))
    ∧ ((DELETE u bd lid db).1.success = true →
      (∃ l2, (DELETE u bd lid db).1.link = some l2)
      ∧ (DELETE u bd lid db).1.status = 200
      ∧ (DELETE u bd lid db).1.error = none) := by
  cases hC : deleteCore u lid db with
  | error e =>
    refine ⟨fun h => ?_, fun h => ?_⟩
    · simp only [DELETE, hC]
      exact ⟨⟨e, rfl⟩, rfl, by simp [errResp]⟩
    · simp only [DELETE, hC] at h
      exact absurd h (by simp [errResp])
  | ok rdb =>
    obtain ⟨r, db2⟩ := rdb
    rcases deleteCore_sound u lid db r db2 hC with
      ⟨hs, _, hl, he, hst⟩ | ⟨hs, hst, he, hl, _⟩
    · refine ⟨fun h => ?_, fun h => ?_⟩
      · simp only [DELETE, hC]
        refine ⟨he, hl, ?_⟩
        rcases hst with h1 | h1 | h1 | h1 <;> simp [h1]
      · simp only [DELETE, hC] at h
        rw [hs] at h
        exact Bool.noConfusion h
    · refine ⟨fun h => ?_, fun h => ?_⟩
      · simp only [DELETE, hC] at h
        rw [hs] at h
        exact Bool.noConfusion h
      · simp only [DELETE, hC]
        exact ⟨hl, hst, he⟩

/-- A pending store fault reached after the input checks is caught and
reported as 500 carrying the underlying message. -/
theorem fault_500 (u : Option String) (b2 : ReqBody) (lid : String) (db : DB)
    (m : String) (hf : db.fault = some m) (hu : truthy u = true)
    (hurl : truthy b2.url = true) (hkw : truthy b2.keyword = true)
    (hti : truthy b2.title = true) (hlid : lid.isEmpty = false) :
    PATCH u (Except.ok b2) lid db = (errResp 500 m, db)
    ∧ DELETE u (Except.ok b2) lid db = (errResp 500 m, db) := by
  have hfb : db.findById lid = Except.error m := by
    unfold DB.findById
    rw [hf]
  constructor
  · simp [PATCH, patchCore, hu, hurl, hkw, hti, hlid, hfb]
  · simp [DELETE, deleteCore, hu, hlid, hfb]

/-- The url field validates exactly when the oracle accepts the lowercased
input. -/
theorem validateUrl_none (isURL : String → Bool) (s : String) :
    validateUrl isURL s = none ↔ isURL (toLowerStr s) = true := by
  cases h : isURL (toLowerStr s) <;> simp [validateUrl, h]

/-- The keyword field validates exactly when the lowercased input has length
at least two and only characters from the allowed class. -/
theorem validateKeyword_none (s : String) :
    validateKeyword s = none
      ↔ (2 ≤ (toLowerStr s).length
         ∧ (toLowerStr s).toList.all keywordCharOk = true) := by
  simp only [validateKeyword, keywordRegexMatch]
  by_cases h1 : (toLowerStr s).length < 2
  · simp only [h1, if_true]
    constructor
    · intro h
      exact Option.noConfusion h
    · rintro ⟨h2, _⟩
      omega
  · simp only [h1, if_false]
    have h2 : (toLowerStr s).isEmpty = false := by
      cases hE : (toLowerStr s).isEmpty
      · rfl
      · exfalso
        have h3 : toLowerStr s = "" := (String.isEmpty_iff _).mp hE
        rw [h3] at h1
        exact h1 (by norm_num)
    by_cases hA : (toLowerStr s).toList.all keywordCharOk = true
    · have hcond : (!(toLowerStr s).isEmpty
          && (toLowerStr s).toList.all keywordCharOk) = true := by
        rw [h2, hA]
        decide
      simp only [hcond]
      constructor
      · intro _
        exact ⟨by omega, hA⟩
      · intro _
        rfl
    · have hA2 : (toLowerStr s).toList.all keywordCharOk = false := by
        simpa using hA
      have hcond : (!(toLowerStr s).isEmpty
          && (toLowerStr s).toList.all keywordCharOk) = false := by
        rw [h2, hA2]
        decide
      simp only [hcond]
      constructor
      · intro h
        exact Option.noConfusion h
      · rintro ⟨_, h3⟩
        exact absurd h3 hA

/-- The schema parses exactly when both fields validate. -/
theorem parseForm_some (isURL : String → Bool) (f : FormInput) :
    (parseForm isURL f).isSome = true
      ↔ (validateUrl isURL f.url = none ∧ validateKeyword f.keyword = none) := by
  unfold parseForm
  cases hU : validateUrl isURL f.url <;> cases hK : validateKeyword f.keyword <;>
    simp [hU, hK]

/-- C1: for every updateLink and every deleteLink request in which the
resolved caller identity does not equal the stored userId of the link, the
operation fails with 403 and the non-ownership message and the store is
unchanged, even when all other fields are valid; and over all requests
whatsoever, a store change by either handler implies the caller was the
owner of the identified link, so no link is ever mutated on behalf of a
non-owner. -/
theorem ownership_enforced (uid : String) (b : ReqBody) (lid : String)
    (db : DB) (l : Link)
    (hurl : truthy b.url = true) (hkw : truthy b.keyword = true)
    (hti : truthy b.title = true) (hlid : lid.isEmpty = false)
    (hfind : db.findById lid = Except.ok (some l))
    (hown : l.userId ≠ uid) (huid : uid.isEmpty = false) :
    PATCH (some uid) (Except.ok b) lid db
        = (errResp 403 "Unauthorized: You do not own this link.", db)
    ∧ DELETE (some uid) (Except.ok b) lid db
        = (errResp 403 "Unauthorized: You do not own this link.", db)
    ∧ (∀ u bd ld d, ((PATCH u bd ld d).2).store ≠ d.store →
        ∃ s l2, u = some s ∧ d.findById ld = Except.ok (some l2) ∧ l2.userId = s)
    ∧ (∀ u bd ld d, ((DELETE u bd ld d).2).store ≠ d.store →
        ∃ s l2, u = some s ∧ d.findById ld = Except.ok (some l2) ∧ l2.userId = s) := by
  have hu : truthy (some uid) = true := by simp [truthy, huid]
  refine ⟨?_, ?_, patch_mutation_owner, delete_mutation_owner⟩
  · simp [PATCH, patchCore, hu, hurl, hkw, hti, hlid, hfind, hown]
  · simp [DELETE, deleteCore, hu, hlid, hfind, hown]

/-- C1 witness: the ownership theorem at a concrete non-owner request. -/
theorem ownership_enforced_witness :
    PATCH (some "U2")
        (Except.ok { title := some "t", keyword := some "k", url := some "u" })
        "L1" db1
      = (errResp 403 "Unauthorized: You do not own this link.", db1) :=
  (ownership_enforced "U2"
    { title := some "t", keyword := some "k", url := some "u" }
    "L1" db1 l1 rfl rfl rfl rfl rfl (by decide) rfl).1

/-- C2 counterexample: an authenticated update request missing both the link
identifier and the url body field fails on the body field with
`URL is required.`, not on the link identifier as the claim states. -/
theorem precondition_order_counterexample :
    (PATCH (some "u1") (Except.ok { title := none, keyword := none, url := none })
        "" dbEmpty).1 = errResp 400 "URL is required."
    ∧ errResp 400 "URL is required." ≠ errResp 400 "Link ID is required." :=
  ⟨rfl, by decide⟩

/-- C2 (amended): the handlers check their preconditions in order, first
failure winning — the caller identity first (else 401); then, for updateLink
only, each of url, keyword, title in that order (else 400 naming the missing
field); and the link identifier last (else 400 `Link ID is required.`).  For
deleteLink the identifier check follows the identity check directly.  A
request missing both the link identifier and a body field fails on the body
field. -/
theorem precondition_order (u : Option String) (b : ReqBody) (lid : String) (db : DB) :
    (truthy u = false →
      PATCH u (Except.ok b) lid db = (errResp 401 "Unauthenticated.", db)
      ∧ DELETE u (Except.ok b) lid db = (errResp 401 "Unauthenticated.", db))
    ∧ (truthy u = true → truthy b.url = false →
      PATCH u (Except.ok b) lid db = (errResp 400 "URL is required.", db))
    ∧ (truthy u = true → truthy b.url = true → truthy b.keyword = false →
      PATCH u (Except.ok b) lid db = (errResp 400 "Keyword is required.", db))
    ∧ (truthy u = true → truthy b.url = true → truthy b.keyword = true →
       truthy b.title = false →
      PATCH u (Except.ok b) lid db = (errResp 400 "Title is required.", db))
    ∧ (truthy u = true → truthy b.url = true → truthy b.keyword = true →
       truthy b.title = true → lid = "" →
      PATCH u (Except.ok b) lid db = (errResp 400 "Link ID is required.", db))
    ∧ (truthy u = true → lid = "" →
      DELETE u (Except.ok b) lid db = (errResp 400 "Link ID is required.", db)) := by
  unfold PATCH DELETE patchCore deleteCore
  refine ⟨?_, ?_, ?_, ?_, ?_, ?_⟩ <;> intros <;> subst_vars <;>
    first | rfl | (simp_all; try rfl)

/-- C2 witness: the order theorem at a concrete request missing only the
link identifier. -/
theorem precondition_order_witness :
    PATCH (some "u1")
        (Except.ok { title := some "t", keyword := some "k", url := some "u" })
        "" dbEmpty
      = (errResp 400 "Link ID is required.", dbEmpty) :=
  (precondition_order (some "u1")
    { title := some "t", keyword := some "k", url := some "u" } "" dbEmpty
    ).2.2.2.2.1 rfl rfl rfl rfl rfl

/-- C3 counterexample: an unauthenticated update request whose body fails to
parse is answered with 500, not 401 — `await req.json()` runs before the
authentication check and its exception lands in the catch clause. -/
theorem unauthenticated_counterexample :
    (PATCH none (Except.error "Unexpected token") "L1" dbEmpty).1.status = 500
    ∧ (500 : Nat) ≠ 401 :=
  ⟨rfl, by decide⟩

/-- C3 (amended): an unauthenticated caller receives 401 on every delete
request and on every update request whose body parses as JSON; an
unauthenticated update request with an unparseable body receives 500
carrying the parse error; in every case no store mutation occurs. -/
theorem unauthenticated_behavior (u : Option String) (b : ReqBody)
    (bd : Except String ReqBody) (e lid : String) (db : DB)
    (h : truthy u = false) :
    PATCH u (Except.ok b) lid db = (errResp 401 "Unauthenticated.", db)
    ∧ DELETE u bd lid db = (errResp 401 "Unauthenticated.", db)
    ∧ PATCH u (Except.error e) lid db = (errResp 500 e, db)
    ∧ (PATCH u bd lid db).2 = db := by
  refine ⟨?_, ?_, rfl, ?_⟩
  · simp [PATCH, patchCore, h]
  · simp [DELETE, deleteCore, h]
  · cases bd with
    | error e2 => rfl
    | ok b2 => simp [PATCH, patchCore, h]

/-- C3 witness: the unauthenticated-behavior theorem at a concrete
request. -/
theorem unauthenticated_behavior_witness :
    PATCH none
        (Except.ok { title := some "t", keyword := some "k", url := some "u" })
        "x" dbEmpty
      = (errResp 401 "Unauthenticated.", dbEmpty) :=
  (unauthenticated_behavior none
    { title := some "t", keyword := some "k", url := some "u" }
    (Except.ok { title := some "t", keyword := some "k", url := some "u" })
    "e" "x" dbEmpty rfl).1

/-- C4: when the earlier preconditions pass, a requested keyword already held
by a different link makes updateLink fail with 400 and the message
`Please enter different keyword.` leaving the store unchanged, while
resubmitting the own unchanged keyword of the link (no other link holding
it) is no conflict and the update succeeds. -/
theorem keyword_conflict (uid : String) (b : ReqBody) (lid : String)
    (db : DB) (l : Link)
    (huid : uid.isEmpty = false)
    (hurl : truthy b.url = true) (hkw : truthy b.keyword = true)
    (hti : truthy b.title = true) (hlid : lid.isEmpty = false)
    (hfind : db.findById lid = Except.ok (some l))
    (hown : l.userId = uid) :
    ((∃ l2 ∈ db.store, l2.keyword = b.keyword.getD "" ∧ l2.id ≠ l.id) →
      PATCH (some uid) (Except.ok b) lid db
        = (errResp 400 "Please enter different keyword.", db))
    ∧ (b.keyword = some l.keyword →
       (∀ l2 ∈ db.store, l2.keyword = l.keyword → l2.id = l.id) →
       (PATCH (some uid) (Except.ok b) lid db).1
         = okResp (updatedLink l (b.title.getD "") l.keyword (b.url.getD ""))) := by
  obtain ⟨hfault, hfq⟩ := findById_ok db lid (some l) hfind
  have hu : truthy (some uid) = true := by simp [truthy, huid]
  constructor
  · rintro ⟨l2, hl2mem, hl2kw, hl2id⟩
    have hsome : (db.store.find? (fun x => x.keyword == b.keyword.getD "" && x.id != l.id)).isSome = true := by
      rw [List.find?_isSome]
      exact ⟨l2, hl2mem, by simp [hl2kw, hl2id]⟩
    obtain ⟨l3, hl3⟩ := Option.isSome_iff_exists.mp hsome
    have hconf : db.findByKeywordNot (b.keyword.getD "") l.id = Except.ok (some l3) := by
      unfold DB.findByKeywordNot
      rw [hfault, hl3]
    simp [PATCH, patchCore, hu, hurl, hkw, hti, hlid, hfind, hown, hconf]
  · intro hkeq huniq
    have hnone : db.store.find? (fun x => x.keyword == b.keyword.getD "" && x.id != l.id) = none := by
      rw [List.find?_eq_none]
      intro x hx
      by_cases hxkw : x.keyword = b.keyword.getD ""
      · have : x.id = l.id := huniq x hx (by rw [hxkw, hkeq]; rfl)
        simp [hxkw, this]
      · simp [hxkw]
    have hconf : db.findByKeywordNot (b.keyword.getD "") l.id = Except.ok none := by
      unfold DB.findByKeywordNot
      rw [hfault, hnone]
    have hup := updateOne_ok db lid (b.title.getD "") (b.keyword.getD "")
      (b.url.getD "") l hfault hfq
    rw [hkeq] at hkw hconf hup
    simp only [Option.getD_some] at hconf hup
    simp [PATCH, patchCore, hu, hurl, hkw, hti, hlid, hfind, hown, hconf, hup,
      okResp, hkeq]

/-- C4 witness: the conflict branch at a concrete store where another link
holds the requested keyword. -/
theorem keyword_conflict_witness :
    PATCH (some "U1")
        (Except.ok { title := some "B", keyword := some "new",
                     url := some "https://b.example" })
        "L1" db2
      = (errResp 400 "Please enter different keyword.", db2) :=
  (keyword_conflict "U1"
      { title := some "B", keyword := some "new", url := some "https://b.example" }
      "L1" db2 l1 rfl rfl rfl rfl rfl rfl rfl).1
    ⟨lconf, by simp [db2], rfl, by decide⟩

/-- C5: on success updateLink overwrites exactly title, keyword and url on
the identified record, persists it (a lookup in the resulting store finds
the updated record) and returns it; deleteLink returns the record as it
existed prior to deletion and removes it — with pairwise-distinct ids no
record with the identifier remains. -/
theorem success_behavior (uid : String) (b : ReqBody) (lid : String)
    (db : DB) (l : Link)
    (huid : uid.isEmpty = false)
    (hurl : truthy b.url = true) (hkw : truthy b.keyword = true)
    (hti : truthy b.title = true) (hlid : lid.isEmpty = false)
    (hfind : db.findById lid = Except.ok (some l))
    (hown : l.userId = uid)
    (hnoconf : db.findByKeywordNot (b.keyword.getD "") l.id = Except.ok none) :
    PATCH (some uid) (Except.ok b) lid db
      = (okResp (updatedLink l (b.title.getD "") (b.keyword.getD "") (b.url.getD "")),
         updatedDB db lid (updatedLink l (b.title.getD "") (b.keyword.getD "") (b.url.getD "")))
    ∧ ((PATCH (some uid) (Except.ok b) lid db).2).store.find? (fun x => x.id == lid)
        = some (updatedLink l (b.title.getD "") (b.keyword.getD "") (b.url.getD ""))
    ∧ DELETE (some uid) (Except.ok b) lid db = (okResp l, deletedDB db lid)
    ∧ (db.store.Pairwise (fun a c => a.id ≠ c.id) →
        ∀ x ∈ ((DELETE (some uid) (Except.ok b) lid db).2).store, x.id ≠ lid) := by
  obtain ⟨hfault, hfq⟩ := findById_ok db lid (some l) hfind
  have hu : truthy (some uid) = true := by simp [truthy, huid]
  have hup := updateOne_ok db lid (b.title.getD "") (b.keyword.getD "")
    (b.url.getD "") l hfault hfq
  have hdel := deleteOne_ok db lid l hfault hfq
  have hpatch : PATCH (some uid) (Except.ok b) lid db
      = (okResp (updatedLink l (b.title.getD "") (b.keyword.getD "") (b.url.getD "")),
         updatedDB db lid (updatedLink l (b.title.getD "") (b.keyword.getD "") (b.url.getD ""))) := by
    simp [PATCH, patchCore, hu, hurl, hkw, hti, hlid, hfind, hown, hnoconf, hup, okResp]
  have hdelete : DELETE (some uid) (Except.ok b) lid db = (okResp l, deletedDB db lid) := by
    simp [DELETE, deleteCore, hu, hlid, hfind, hown, hdel, okResp]
  have hpid : (l.id == lid) = true := by
    have h0 := List.find?_some hfq
    simpa using h0
  refine ⟨hpatch, ?_, hdelete, ?_⟩
  · rw [hpatch]
    exact find?_replaceFirst _ _ db.store l hfq (by simp [updatedLink]; simpa using hpid)
  · intro hdist
    rw [hdelete]
    exact eraseP_id_not_mem lid db.store hdist

/-- C5 witness: the success theorem at a concrete update request. -/
theorem success_behavior_witness :
    PATCH (some "U1")
        (Except.ok { title := some "B", keyword := some "new",
                     url := some "https://b.example" })
        "L1" db1
      = (okResp (updatedLink l1 "B" "new" "https://b.example"),
         updatedDB db1 "L1" (updatedLink l1 "B" "new" "https://b.example")) :=
  (success_behavior "U1"
      { title := some "B", keyword := some "new", url := some "https://b.example" }
      "L1" db1 l1 rfl rfl rfl rfl rfl rfl rfl rfl).1

/-- C6: every successful updateLink or deleteLink call performs exactly one
store mutation, and every failing call leaves the store component exactly as
it was. -/
theorem mutation_frame (u : Option String) (bd : Except String ReqBody)
    (lid : String) (db : DB) :
    ((PATCH u bd lid db).1.success = true →
      (PATCH u bd lid db).2.muts = db.muts + 1)
    ∧ ((PATCH u bd lid db).1.success = false → (PATCH u bd lid db).2 = db)
    ∧ ((DELETE u bd lid db).1.success = true →
      (DELETE u bd lid db).2.muts = db.muts + 1)
    ∧ ((DELETE u bd lid db).1.success = false → (DELETE u bd lid db).2 = db) :=
  ⟨(patch_frame u bd lid db).1, (patch_frame u bd lid db).2,
   (delete_frame u bd lid db).1, (delete_frame u bd lid db).2⟩

/-- C6 witness: a concrete successful delete performs exactly one
mutation. -/
theorem mutation_frame_witness :
    (DELETE (some "U1") (Except.ok { title := none, keyword := none, url := none })
        "L1" db1).2.muts = db1.muts + 1 :=
  (mutation_frame (some "U1")
    (Except.ok { title := none, keyword := none, url := none }) "L1" db1).2.2.1 rfl

/-- C7: every response of either handler is a structured result — failures
carry success false, an error message, no link and a status among 400, 401,
403, 404, 500; successes carry success true, the link and status 200 — and
an unexpected store fault reached after the input checks is caught and
reported as 500 carrying the underlying message rather than escaping. -/
theorem response_shape (u : Option String) (bd : Except String ReqBody)
    (lid : String) (db : DB) :
    ((PATCH u bd lid db).1.success = false →
      (∃ m, (PATCH u bd lid db).1.error = some m)
      ∧ (PATCH u bd lid db).1.link = none
      ∧ ((PATCH u bd lid db).1.status = 400 ∨ (PATCH u bd lid db).1.status = 401
         ∨ (PATCH u bd lid db).1.status = 403 ∨ (PATCH u bd lid db).1.status = 404
         ∨ (PATCH u bd lid db).1.status = 500))
    ∧ ((PATCH u bd lid db).1.success = true →
      (∃ l2, (PATCH u bd lid db).1.link = some l2)
      ∧ (PATCH u bd lid db).1.status = 200
      ∧ (PATCH u bd lid db).1.error = none)
    ∧ ((DELETE u bd lid db).1.success = false →
      (∃ m, (DELETE u bd lid db).1.error = some m)
      ∧ (DELETE u bd lid db).1.link = none
      ∧ ((DELETE u bd lid db).1.status = 400 ∨ (DELETE u bd lid db).1.status = 401
         ∨ (DELETE u bd lid db).1.status = 403 ∨ (DELETE u bd lid db).1.status = 404
         ∨ (DELETE u bd lid db).1.status = 500))
    ∧ ((DELETE u bd lid db).1.success = true →
      (∃ l2, (DELETE u bd lid db).1.link = some l2)
      ∧ (DELETE u bd lid db).1.status = 200
      ∧ (DELETE u bd lid db).1.error = none)
    ∧ (∀ m b2, db.fault = some m → truthy u = true → truthy b2.url = true →
        truthy b2.keyword = true → truthy b2.title = true → lid.isEmpty = false →
        PATCH u (Except.ok b2) lid db = (errResp 500 m, db)
        ∧ DELETE u (Except.ok b2) lid db = (errResp 500 m, db)) :=
  ⟨(patch_shape u bd lid db).1, (patch_shape u bd lid db).2,
   (delete_shape u bd lid db).1, (delete_shape u bd lid db).2,
   fun m b2 hf hu hurl hkw hti hlid =>
     fault_500 u b2 lid db m hf hu hurl hkw hti hlid⟩

/-- C7 witness: a concrete store fault is reported as a 500 response
carrying the message. -/
theorem response_shape_witness :
    PATCH (some "U1")
        (Except.ok { title := some "t", keyword := some "k", url := some "u" })
        "L1" dbFault
      = (errResp 500 "boom", dbFault) :=
  ((response_shape (some "U1")
      (Except.ok { title := some "t", keyword := some "k", url := some "u" })
      "L1" dbFault).2.2.2.2 "boom"
      { title := some "t", keyword := some "k", url := some "u" }
      rfl rfl rfl rfl rfl rfl).1

/-- C8: on submit the dialog resolves a title best-effort — when the lookup
fails, or the fetched contents have no title match, or the match is empty,
the title carried out-of-band with the creation request is the raw submitted
URL — and the payload of the creation request is the submitted values
regardless of the lookup outcome, so no lookup failure surfaces. -/
theorem title_fallback (url kw e contents : String)
    (lookup : Except String String) :
    buildCreateRequest { url := url, keyword := kw } (Except.error e)
      = { url := url, keyword := kw, titleHeader := url }
    ∧ (findTitle contents.toList = none →
       buildCreateRequest { url := url, keyword := kw } (Except.ok contents)
         = { url := url, keyword := kw, titleHeader := url })
    ∧ (findTitle contents.toList = some [] →
       buildCreateRequest { url := url, keyword := kw } (Except.ok contents)
         = { url := url, keyword := kw, titleHeader := url })
    ∧ (buildCreateRequest { url := url, keyword := kw } lookup).url = url
    ∧ (buildCreateRequest { url := url, keyword := kw } lookup).keyword = kw := by
  refine ⟨rfl, fun h => ?_, fun h => ?_, rfl, rfl⟩
  · have h2 : findTitle contents.data = none := h
    simp [buildCreateRequest, resolveTitle, h2]
  · have h2 : findTitle contents.data = some [] := h
    simp [buildCreateRequest, resolveTitle, h2]

/-- C8 witness: the fallback at concrete contents without a title tag. -/
theorem title_fallback_witness :
    buildCreateRequest { url := "https://x.example", keyword := "kw" }
        (Except.ok "<html>hello</html>")
      = { url := "https://x.example", keyword := "kw",
          titleHeader := "https://x.example" } :=
  (title_fallback "https://x.example" "kw" "e" "<html>hello</html>"
    (Except.error "e")).2.1 rfl

/-- C9: the dialog submits exactly when, after lowercasing, the url passes
the URL well-formedness oracle and the keyword has two or more characters
all drawn from lowercase letters, digits, hyphen and underscore; each
violation produces its field message and no creation request is sent. -/
theorem form_validation (isURL : String → Bool) (f : FormInput)
    (lookup : Except String String) :
    ((∃ r, handleSubmit isURL f lookup = some r)
      ↔ (isURL (toLowerStr f.url) = true
         ∧ 2 ≤ (toLowerStr f.keyword).length
         ∧ (toLowerStr f.keyword).toList.all keywordCharOk = true))
    ∧ (isURL (toLowerStr f.url) = false →
        validateUrl isURL f.url = some "Please enter a valid URL."
        ∧ handleSubmit isURL f lookup = none)
    ∧ ((toLowerStr f.keyword).length < 2 →
        validateKeyword f.keyword = some "Please enter 2 or more characters."
        ∧ handleSubmit isURL f lookup = none)
    ∧ (2 ≤ (toLowerStr f.keyword).length →
       (toLowerStr f.keyword).toList.all keywordCharOk = false →
        validateKeyword f.keyword
          = some "Only letters, numbers, hyphens (-) and underscores (_) are allowed."
        ∧ handleSubmit isURL f lookup = none) := by
  have hiff : (∃ r, handleSubmit isURL f lookup = some r)
      ↔ (parseForm isURL f).isSome = true := by
    unfold handleSubmit
    cases hP : parseForm isURL f <;> simp [hP]
  refine ⟨?_, fun h => ?_, fun h => ?_, fun h1 h2 => ?_⟩
  · rw [hiff, parseForm_some, validateUrl_none, validateKeyword_none]
  · have hU : validateUrl isURL f.url = some "Please enter a valid URL." := by
      unfold validateUrl
      simp [h]
    refine ⟨hU, ?_⟩
    unfold handleSubmit parseForm
    simp [hU]
  · have hK : validateKeyword f.keyword
        = some "Please enter 2 or more characters." := by
      unfold validateKeyword
      simp [h]
    refine ⟨hK, ?_⟩
    unfold handleSubmit parseForm
    simp [hK]
  · have h1n : ¬((toLowerStr f.keyword).length < 2) := by omega
    have hne : (toLowerStr f.keyword).isEmpty = false := by
      cases hE : (toLowerStr f.keyword).isEmpty
      · rfl
      · exfalso
        have h3 : toLowerStr f.keyword = "" := (String.isEmpty_iff _).mp hE
        rw [h3] at h1
        exact absurd h1 (by norm_num)
    have hcond : (!(toLowerStr f.keyword).isEmpty
        && (toLowerStr f.keyword).toList.all keywordCharOk) = false := by
      rw [hne, h2]
      decide
    have hK : validateKeyword f.keyword
        = some "Only letters, numbers, hyphens (-) and underscores (_) are allowed." := by
      simp only [validateKeyword, keywordRegexMatch, h1n, if_false, hcond]
      rfl
    refine ⟨hK, ?_⟩
    unfold handleSubmit parseForm
    simp [hK]

/-- C9 witness: a keyword with a forbidden character is rejected with the
class message and nothing is sent. -/
theorem form_validation_witness :
    validateKeyword "A!"
      = some "Only letters, numbers, hyphens (-) and underscores (_) are allowed."
    ∧ handleSubmit (fun _ => true) { url := "https://x", keyword := "A!" }
        (Except.error "e") = none :=
  (form_validation (fun _ => true) { url := "https://x", keyword := "A!" }
    (Except.error "e")).2.2.2 (by decide) (by decide)

/-- C10: the DELETE handler never reads the request body — for a fixed
identity, link identifier and store, any two bodies, parsed or malformed,
yield the identical response and resulting store. -/
theorem delete_ignores_body (u : Option String) (b1 b2 : Except String ReqBody)
    (lid : String) (db : DB) : DELETE u b1 lid db = DELETE u b2 lid db := rfl
